import Mathlib

/-!
Verification of the classification-and-decision pipeline of the
co-parenting Telegram moderation bot.

The Python sources embedded here are `config.py` (moderation profiles and
profile lookup), `bot/filters.py` (`ModerationResponse.from_json`,
`_build_system_prompt`, `classify`, `_classify_with_openai`) and
`bot/handlers.py` (`_build_warning_message`).

Python values flowing through the pipeline are dynamically typed, so they
are modelled by the inductive `PyVal`.  The standard-library call
`json.loads` is not repository code; it is modelled by its outcome: `none`
for a `json.JSONDecodeError`, `some v` for a successfully parsed value.
Fallible Python code is embedded as `Except PyErr _`, where `PyErr` is the
exception that propagates.
-/

/-- A dynamically typed Python value (the fragment produced by `json.loads`
plus the literals appearing in the sources). -/
inductive PyVal where
  | none
  | bool (b : Bool)
  | int (n : Int)
  | str (s : String)
  | list (xs : List PyVal)
  | dict (kvs : List (String × PyVal))

/-- The Python exceptions that the embedded code can raise. -/
inductive PyErr where
  | keyError (key : String)
  | attributeError (attr : String)
  | typeError
deriving DecidableEq

mutual
/-- Python `==` on the modelled values.  Python treats `bool` as a subtype
of `int` (`True == 1`); container equality is element-wise.  (`dict`
equality in Python is order-insensitive; the entry-wise version here is
only ever applied through the sources' comparisons against string
constants, where the two agree.) -/
def pyEq : PyVal → PyVal → Bool
  | .none, .none => true
  | .bool a, .bool b => a == b
  | .bool a, .int n => (if a then (1 : Int) else 0) == n
  | .int n, .bool b => n == (if b then (1 : Int) else 0)
  | .int a, .int b => a == b
  | .str a, .str b => a == b
  | .list a, .list b => pyEqList a b
  | .dict a, .dict b => pyEqDict a b
  | _, _ => false
/-- Element-wise Python `==` on lists. -/
def pyEqList : List PyVal → List PyVal → Bool
  | [], [] => true
  | a :: as, b :: bs => pyEq a b && pyEqList as bs
  | _, _ => false
/-- Entry-wise Python `==` on dict association lists. -/
def pyEqDict : List (String × PyVal) → List (String × PyVal) → Bool
  | [], [] => true
  | (k1, v1) :: as, (k2, v2) :: bs => k1 == k2 && pyEq v1 v2 && pyEqDict as bs
  | _, _ => false
end

mutual
/-- Python `repr` of a modelled value (string escaping and quote selection
simplified; only ever interpolated on the repository's plain strings,
where `str`, below, is exact). -/
def pyRepr : PyVal → String
  | .none => "None"
  | .bool true => "True"
  | .bool false => "False"
  | .int n => toString n
  | .str s => "\x27" ++ s ++ "\x27"
  | .list xs => "[" ++ pyReprItems xs ++ "]"
  | .dict kvs => "\x7b" ++ pyReprEntries kvs ++ "\x7d"
/-- `", ".join` of the reprs of a list's items. -/
def pyReprItems : List PyVal → String
  | [] => ""
  | [x] => pyRepr x
  | x :: xs => pyRepr x ++ ", " ++ pyReprItems xs
/-- `", ".join` of the reprs of a dict's entries. -/
def pyReprEntries : List (String × PyVal) → String
  | [] => ""
  | [(k, v)] => "\x27" ++ k ++ "\x27: " ++ pyRepr v
  | (k, v) :: xs => "\x27" ++ k ++ "\x27: " ++ pyRepr v ++ ", " ++ pyReprEntries xs
end

/-- Python `str()` of a modelled value, as used by f-string interpolation. -/
def pyStr : PyVal → String
  | .str s => s
  | v => pyRepr v

/-- Python truthiness (`bool(v)`) of a modelled value. -/
def truthy : PyVal → Bool
  | .none => false
  | .bool b => b
  | .int n => n != 0
  | .str s => !(s == "")
  | .list xs => !xs.isEmpty
  | .dict kvs => !kvs.isEmpty

/-- Key lookup in a Python dict modelled as an association list.  A later
binding of the same key shadows an earlier one, matching both dict-literal
construction and `json.loads` duplicate-key handling. -/
def assocFind {α : Type} : List (String × α) → String → Option α
  | [], _ => Option.none
  | (k2, v) :: rest, k =>
      match assocFind rest k with
      | Option.some w => Option.some w
      | Option.none => if k2 == k then Option.some v else Option.none

/-- Python `d.get(key, default)` on a dict of modelled values. -/
def dictGet (d : List (String × PyVal)) (k : String) (dflt : PyVal) : PyVal :=
  (assocFind d k).getD dflt

/-- Python `d[key]` on a dict: raises `KeyError` when the key is absent. -/
def dictItem {α : Type} (d : List (String × α)) (k : String) : Except PyErr α :=
  match assocFind d k with
  | Option.some v => Except.ok v
  | Option.none => Except.error (PyErr.keyError k)

/-- Python iteration over a modelled value (`for x in v`): lists yield
their items, strings their characters, dicts their keys; anything else
raises `TypeError`. -/
def pyIter : PyVal → Except PyErr (List PyVal)
  | .list xs => Except.ok xs
  | .str s => Except.ok (s.data.map (fun c => PyVal.str (String.mk [c])))
  | .dict kvs => Except.ok (kvs.map (fun p => PyVal.str p.1))
  | _ => Except.error PyErr.typeError

/-- Python `sep.join(items)`. -/
def pyJoin (sep : String) : List String → String
  | [] => ""
  | [x] => x
  | x :: xs => x ++ sep ++ pyJoin sep xs

/-- The `ModerationResponse` class of `bot/filters.py`: the structured
verdict with fields `allow`, `reason`, `category`.  The fields hold
whatever Python values the JSON supplied, hence `PyVal`. -/
structure ModerationResponse where
  allow : PyVal
  reason : PyVal
  category : PyVal

/-- `ModerationResponse.from_json` of `bot/filters.py`, lines 40-57.  Its
argument is the outcome of `json.loads(json_str)`: `none` when `json.loads`
raises `json.JSONDecodeError` (caught, yielding the fixed fallback), and
`some v` for the parsed value `v`.  On a parsed dict the three fields are
extracted with `data.get` and the documented defaults.  On a parsed
non-dict value, `data.get` raises `AttributeError`, which the
`except (json.JSONDecodeError, KeyError)` clause does NOT catch, so it
propagates. -/
def fromJson : Option PyVal → Except PyErr ModerationResponse
  | Option.none =>
      Except.ok
        { allow := PyVal.bool false
          reason := PyVal.str "Message could not be properly evaluated"
          category := PyVal.str "parsing_error" }
  | Option.some (PyVal.dict kvs) =>
      Except.ok
        { allow := dictGet kvs "allow" (PyVal.bool false)
          reason := dictGet kvs "reason" (PyVal.str "No reason provided")
          category := dictGet kvs "category" (PyVal.str "") }
  | Option.some _ => Except.error (PyErr.attributeError "get")

/-- A Python dict with string keys, as used for moderation profiles. -/
def PyDict : Type := List (String × PyVal)

/-- The `"manipulative_coparent"` entry of `MODERATION_PROFILES` in
`config.py`, lines 16-30. -/
def manipulativeCoparentProfile : PyDict :=
  [("name", PyVal.str "Manipulative Co-Parent"),
   ("description", PyVal.str "Someone who tends toward performative behavior, narrative crafting, and inconsistent actions"),
   ("behaviors", PyVal.list
     [PyVal.str "performative posturing without follow-through",
      PyVal.str "crafting narratives about being good while failing to take positive action",
      PyVal.str "manipulative language designed to appear reasonable",
      PyVal.str "deflection from actual logistics to emotional manipulation",
      PyVal.str "making themselves appear as the victim or hero",
      PyVal.str "saying the right things but consistently failing to act",
      PyVal.str "using guilt, blame, or emotional pressure instead of facts",
      PyVal.str "grandstanding or virtue signaling without substance"]),
   ("permissive_mode", PyVal.bool true)]

/-- The `"standard"` entry of `MODERATION_PROFILES` in `config.py`,
lines 31-36. -/
def standardProfile : PyDict :=
  [("name", PyVal.str "Standard Moderation"),
   ("description", PyVal.str "Basic co-parenting topic filtering"),
   ("behaviors", PyVal.list []),
   ("permissive_mode", PyVal.bool true)]

/-- `MODERATION_PROFILES` of `config.py`, lines 15-37. -/
def MODERATION_PROFILES : List (String × PyDict) :=
  [("manipulative_coparent", manipulativeCoparentProfile),
   ("standard", standardProfile)]

/-- `Config.get_moderation_profile` of `config.py`, lines 84-87:
`MODERATION_PROFILES.get(cls.MODERATION_PROFILE, MODERATION_PROFILES["standard"])`.
The environment-derived setting `Config.MODERATION_PROFILE` is the
argument; `MODERATION_PROFILES["standard"]` is `standardProfile` by the
definition above. -/
def getModerationProfile (setting : String) : PyDict :=
  (assocFind MODERATION_PROFILES setting).getD standardProfile

/-- The fixed `base_prompt` literal of `_build_system_prompt`
(`bot/filters.py`, lines 64-74). -/
def basePromptText : String :=
  "You are a co-parenting message moderator. Your job is to evaluate messages for appropriateness in a co-parenting logistics group.\n\nCORE RULES:\n1. ALLOW messages about: children\x27s health, education, scheduling, logistics, emergencies\n2. BE PERMISSIVE: When in doubt or if context is unclear, ALLOW the message\n3. Only BLOCK messages that are OBVIOUSLY inappropriate\n\nRESPONSE FORMAT: Return ONLY valid JSON in this exact format:\n\x7b\"allow\": true/false, \"reason\": \"specific explanation\", \"category\": \"reason_category\"\x7d\n\n"

/-- The `profile_prompt` f-string of `_build_system_prompt`
(`bot/filters.py`, lines 79-91), as a function of the interpolated
`profile["name"]` rendering and the joined `behavior_text`.  The rendered
string is the f-string's text verbatim; the concatenation seams here sit
at the newline boundaries that the structural proofs below decompose. -/
def profilePromptText (name behaviorText : String) : String :=
  "\n" ++ "MODERATION PROFILE: " ++ name ++
  "\nWatch specifically for these behavioral patterns:" ++ "\n" ++ behaviorText ++
  "\n" ++ "\nWhen blocking, use specific language about what pattern was detected.\nExamples of targeted responses:\n- \"This appears to be performative posturing rather than actionable co-parenting communication\"\n- \"This message deflects from logistics to emotional manipulation\"\n- \"This seems designed to craft a narrative rather than address children\x27s needs\"\n- \"This appears to be grandstanding without substance about children\x27s welfare\"\n\n"

/-- The final sentence of the closing prompt block: the explicit bias
instruction for ambiguous messages. -/
def biasInstructionText : String :=
  "Remember: When message intent is unclear or ambiguous, ALWAYS err on the side of allowing it."

/-- The closing examples-and-bias literal appended by
`_build_system_prompt` (`bot/filters.py`, lines 94-100); the rendered
string is the source literal verbatim, with its final sentence factored
out as `biasInstructionText`. -/
def closingPromptText : String :=
  "\nEXAMPLES:\n\x7b\"allow\": true, \"reason\": \"Legitimate scheduling discussion\", \"category\": \"scheduling\"\x7d\n\x7b\"allow\": false, \"reason\": \"This appears to be performative posturing rather than actionable co-parenting communication\", \"category\": \"performative\"\x7d\n\x7b\"allow\": true, \"reason\": \"Unclear context but potentially legitimate\", \"category\": \"permissive\"\x7d\n\n" ++ biasInstructionText

/-- `_build_system_prompt` of `bot/filters.py`, lines 60-102, as a
function of the profile dict it reads via
`config.get_moderation_profile()`.  `profile["behaviors"]` and (in the
truthy branch) `profile["name"]` are dict subscripts that raise `KeyError`
when absent; the behaviors are iterated to build `behavior_text`
(`"\n".join` of `f"- \x7bbehavior\x7d"`). -/
def buildSystemPrompt (profile : PyDict) : Except PyErr String :=
  match dictItem profile "behaviors" with
  | Except.error e => Except.error e
  | Except.ok behaviors =>
    if truthy behaviors then
      match pyIter behaviors with
      | Except.error e => Except.error e
      | Except.ok items =>
        let behaviorText := pyJoin "\n" (items.map (fun b => "- " ++ pyStr b))
        match dictItem profile "name" with
        | Except.error e => Except.error e
        | Except.ok nameVal =>
          Except.ok (basePromptText ++ profilePromptText (pyStr nameVal) behaviorText
            ++ closingPromptText)
    else
      Except.ok (basePromptText ++ closingPromptText)

/-- The observable outcome of the OpenAI chat-completion call in
`_classify_with_openai` (`bot/filters.py`, lines 157-168): one of the
caught exception classes, or a reply whose stripped message content was
fed to `json.loads` — modelled, as throughout, by that call's outcome
(`none` = `json.JSONDecodeError`, `some v` = parsed value `v`). -/
inductive ApiOutcome where
  | rateLimit
  | connectionError
  | timeout
  | otherError (msg : String)
  | reply (loaded : Option PyVal)

/-- A `RuntimeError` message, as raised by `_classify_with_openai`. -/
def RuntimeErrorMsg : Type := String

/-- `_classify_with_openai` of `bot/filters.py`, lines 138-184, as a
function of the profile dict, whether the module-level OpenAI `client`
initialised, the external service (a map from the system prompt and user
message to an `ApiOutcome`), and the message text.  Every failure path
raises `RuntimeError`: a missing client immediately; each caught OpenAI
exception with its fixed message; and any other exception inside the `try`
(a `KeyError` from prompt building, or the `AttributeError` from
`ModerationResponse.from_json` on non-dict JSON) via the final
`except Exception` clause as `f"AI service error: \x7be\x7d"`. -/
def classifyWithOpenai (profile : PyDict) (clientInit : Bool)
    (api : String → String → ApiOutcome) (text : String) :
    Except RuntimeErrorMsg ModerationResponse :=
  if !clientInit then
    Except.error "OpenAI client not initialized"
  else
    match buildSystemPrompt profile with
    | Except.error _ => Except.error "AI service error: *"
    | Except.ok systemPrompt =>
      match api systemPrompt ("Evaluate this message: " ++ text) with
      | ApiOutcome.rateLimit =>
          Except.error "AI service temporarily unavailable (rate limit)"
      | ApiOutcome.connectionError => Except.error "AI service connection failed"
      | ApiOutcome.timeout => Except.error "AI service timeout"
      | ApiOutcome.otherError msg => Except.error ("AI service error: " ++ msg)
      | ApiOutcome.reply loaded =>
          match fromJson loaded with
          | Except.ok r => Except.ok r
          | Except.error _ => Except.error "AI service error: *"

/-- The permissive-mode fallback response built in `classify`
(`bot/filters.py`, lines 125-129). -/
def permissiveFallback : ModerationResponse :=
  { allow := PyVal.bool true
    reason := PyVal.str "Unable to evaluate - allowing due to permissive mode"
    category := PyVal.str "error_permissive" }

/-- The blocking fallback response built in `classify`
(`bot/filters.py`, lines 131-135). -/
def blockingFallback : ModerationResponse :=
  { allow := PyVal.bool false
    reason := PyVal.str "Unable to evaluate message properly"
    category := PyVal.str "error_blocking" }

/-- `classify` of `bot/filters.py`, lines 105-135: tries
`_classify_with_openai(text)`; on any exception, re-resolves the active
profile and consults `profile.get("permissive_mode", True)` (Python
truthiness) to choose between the permissive and blocking fallbacks.  The
codomain stays `Except` so that "never raises" is expressible: an
exception escaping `classify` would be an `Except.error` value. -/
def classify (profile : PyDict) (clientInit : Bool)
    (api : String → String → ApiOutcome) (text : String) :
    Except RuntimeErrorMsg ModerationResponse :=
  match classifyWithOpenai profile clientInit api text with
  | Except.ok r => Except.ok r
  | Except.error _ =>
      if truthy (dictGet profile "permissive_mode" (PyVal.bool true)) then
        Except.ok permissiveFallback
      else
        Except.ok blockingFallback

/-- The fixed `base_message` of `_build_warning_message`
(`bot/handlers.py`, line 121). -/
def baseWarningText : String :=
  "This group is for co-parenting logistics only (health, education, scheduling, logistics)."

/-- The `category_messages` table of `_build_warning_message`
(`bot/handlers.py`, lines 124-132). -/
def categoryMessages : List (String × String) :=
  [("performative", "Your message appeared to be performative posturing rather than actionable co-parenting communication."),
   ("manipulation", "Your message seemed to deflect from logistics to emotional manipulation."),
   ("narrative", "Your message appeared to craft a narrative rather than address children\x27s needs."),
   ("grandstanding", "Your message seemed to be grandstanding without substance about children\x27s welfare."),
   ("off_topic", "Your message was off-topic for this co-parenting logistics group."),
   ("emotional_pressure", "Your message used emotional pressure instead of focusing on factual logistics."),
   ("deflection", "Your message deflected from actual logistics to other topics.")]

/-- Membership-and-lookup of a (possibly non-string) Python value among
the string keys of `category_messages`, via Python `==`; models the pair
`moderation_result.category in category_messages` /
`category_messages[moderation_result.category]`. -/
def categoryLookup : List (String × String) → PyVal → Option String
  | [], _ => Option.none
  | (k, v) :: rest, c =>
      match categoryLookup rest c with
      | Option.some w => Option.some w
      | Option.none => if pyEq (PyVal.str k) c then Option.some v else Option.none

/-- `_build_warning_message` of `bot/handlers.py`, lines 111-142: starts
from `moderation_result.reason`; if that reason `==` one of the two
generic fallback strings and the category is a key of
`category_messages`, substitutes the table's explanation; returns
`f"\x7bbase_message\x7d \x7bspecific_reason\x7d"`. -/
def buildWarningMessage (m : ModerationResponse) : String :=
  let isGeneric := pyEq m.reason (PyVal.str "No reason provided")
    || pyEq m.reason (PyVal.str "Message could not be properly evaluated")
  match (if isGeneric then categoryLookup categoryMessages m.category
         else Option.none) with
  | Option.some explanation => baseWarningText ++ " " ++ explanation
  | Option.none => baseWarningText ++ " " ++ pyStr m.reason

/-! ## Helper lemmas -/

/-- Exhibiting a three-way split of a string shows the middle part's
character list is an infix. -/
theorem strMid_of_eq {out x m y : String} (h : out = x ++ m ++ y) :
    m.data <:+: out.data := by
  refine ⟨x.data, y.data, ?_⟩
  subst h
  simp [String.data_append]

/-- A leading part of a string append is an infix. -/
theorem strLeft_of_eq {out m y : String} (h : out = m ++ y) :
    m.data <:+: out.data := by
  refine ⟨[], y.data, ?_⟩
  subst h
  simp [String.data_append]

/-- A trailing part of a string append is an infix. -/
theorem strRight_of_eq {out x m : String} (h : out = x ++ m) :
    m.data <:+: out.data := by
  refine ⟨x.data, [], ?_⟩
  subst h
  simp [String.data_append]

/-- A trailing part of a string append is a suffix. -/
theorem strSuffix_of_eq {out x m : String} (h : out = x ++ m) :
    m.data <:+ out.data := by
  refine ⟨x.data, ?_⟩
  subst h
  simp [String.data_append]

/-- Every member of a `"\n".join` of `"- "`-prefixed lines occupies its
own line: surrounded by the enclosing newlines, `"\n- " ++ b ++ "\n"`
occurs inside the joined block. -/
theorem pyJoin_mem_line (bs : List String) (b : String) (hb : b ∈ bs) :
    ("\n- " ++ b ++ "\n").data <:+:
      ("\n" ++ pyJoin "\n" (bs.map (fun s => "- " ++ s)) ++ "\n").data := by
  induction bs with
  | nil => cases hb
  | cons x rest ih =>
    cases rest with
    | nil =>
      have hbx : b = x := by simpa using hb
      subst hbx
      have heq : ("\n" ++ pyJoin "\n" ([b].map (fun s => "- " ++ s)) ++ "\n")
          = ("\n- " ++ b ++ "\n") := by
        simp only [List.map, pyJoin]
        simp [String.append_assoc]
        rw [show ("\n- " : String) = "\n" ++ "- " from rfl, String.append_assoc]
      rw [heq]
    | cons r rest2 =>
      rcases List.mem_cons.mp hb with hbx | hbr
      · subst hbx
        have heq : ("\n" ++ pyJoin "\n" ((b :: r :: rest2).map (fun s => "- " ++ s)) ++ "\n")
            = ("\n- " ++ b ++ "\n") ++
              (pyJoin "\n" ((r :: rest2).map (fun s => "- " ++ s)) ++ "\n") := by
          simp only [List.map, pyJoin]
          simp [String.append_assoc]
          rw [show ("\n- " : String) = "\n" ++ "- " from rfl, String.append_assoc]
        exact strLeft_of_eq heq
      · have heq : ("\n" ++ pyJoin "\n" ((x :: r :: rest2).map (fun s => "- " ++ s)) ++ "\n")
            = ("\n" ++ "- " ++ x) ++
              ("\n" ++ pyJoin "\n" ((r :: rest2).map (fun s => "- " ++ s)) ++ "\n") := by
          simp only [List.map, pyJoin]
          simp [String.append_assoc]
          rw [show ("\n- " : String) = "\n" ++ "- " from rfl, String.append_assoc]
        exact (ih hbr).trans (strRight_of_eq heq)

/-! ## Claim theorems -/

/-- Claim C1: for every input string `text` (and every profile, client
state and external-service behaviour), `classify(text)` returns a
`ModerationResponse` and never propagates an exception to the caller:
the embedded `classify` always yields `Except.ok`. -/
theorem classify_never_raises (profile : PyDict) (clientInit : Bool)
    (api : String → String → ApiOutcome) (text : String) :
    ∃ r, classify profile clientInit api text = Except.ok r := by
  unfold classify
  cases classifyWithOpenai profile clientInit api text with
  | ok r => exact ⟨r, rfl⟩
  | error e =>
    cases hp : truthy (dictGet profile "permissive_mode" (PyVal.bool true))
    · exact ⟨blockingFallback, by simp [hp]⟩
    · exact ⟨permissiveFallback, by simp [hp]⟩

/-- Claim C2: whenever the classifier call raises (in particular on any
transport failure), `classify` returns the permissive fallback Decision
when the active profile maps `"permissive_mode"` to `True`, and the
blocking fallback Decision when it maps it to `False`. -/
theorem classify_transport_failure_fallback (profile : PyDict) (clientInit : Bool)
    (api : String → String → ApiOutcome) (text : String) (e : RuntimeErrorMsg)
    (hfail : classifyWithOpenai profile clientInit api text = Except.error e) :
    (assocFind profile "permissive_mode" = Option.some (PyVal.bool true) →
      classify profile clientInit api text = Except.ok
        { allow := PyVal.bool true
          reason := PyVal.str "Unable to evaluate - allowing due to permissive mode"
          category := PyVal.str "error_permissive" })
    ∧ (assocFind profile "permissive_mode" = Option.some (PyVal.bool false) →
      classify profile clientInit api text = Except.ok
        { allow := PyVal.bool false
          reason := PyVal.str "Unable to evaluate message properly"
          category := PyVal.str "error_blocking" }) := by
  constructor
  · intro hp
    unfold classify
    rw [hfail]
    simp [dictGet, hp, truthy, permissiveFallback]
  · intro hp
    unfold classify
    rw [hfail]
    simp [dictGet, hp, truthy, blockingFallback]

/-- Witness for C2: with the `"standard"` profile (whose
`permissive_mode` is `True`) and a service that times out, `classify`
returns the permissive fallback. -/
theorem classify_transport_failure_fallback_witness :
    classify standardProfile true (fun _ _ => ApiOutcome.timeout) "hello" =
      Except.ok
        { allow := PyVal.bool true
          reason := PyVal.str "Unable to evaluate - allowing due to permissive mode"
          category := PyVal.str "error_permissive" } :=
  (classify_transport_failure_fallback standardProfile true
    (fun _ _ => ApiOutcome.timeout) "hello" "AI service timeout" rfl).1 rfl

/-- Claim C10: when the classifier call fails and the active profile's
dict lacks the `"permissive_mode"` key entirely,
`profile.get("permissive_mode", True)` yields the default `True`, so
`classify` returns the permissive (`allow=True`) fallback Decision. -/
theorem classify_missing_permissive_key (profile : PyDict) (clientInit : Bool)
    (api : String → String → ApiOutcome) (text : String) (e : RuntimeErrorMsg)
    (hnokey : assocFind profile "permissive_mode" = Option.none)
    (hfail : classifyWithOpenai profile clientInit api text = Except.error e) :
    classify profile clientInit api text = Except.ok
      { allow := PyVal.bool true
        reason := PyVal.str "Unable to evaluate - allowing due to permissive mode"
        category := PyVal.str "error_permissive" } := by
  unfold classify
  rw [hfail]
  simp [dictGet, hnokey, truthy, permissiveFallback]

/-- Witness for C10: a profile dict without a `"permissive_mode"` key and
an uninitialised client (so the call raises) yield the permissive
fallback. -/
theorem classify_missing_permissive_key_witness :
    classify [("name", PyVal.str "X"), ("behaviors", PyVal.list [])] false
      (fun _ _ => ApiOutcome.reply Option.none) "msg" =
      Except.ok
        { allow := PyVal.bool true
          reason := PyVal.str "Unable to evaluate - allowing due to permissive mode"
          category := PyVal.str "error_permissive" } :=
  classify_missing_permissive_key [("name", PyVal.str "X"), ("behaviors", PyVal.list [])]
    false (fun _ _ => ApiOutcome.reply Option.none) "msg"
    "OpenAI client not initialized" rfl rfl

/-- Claim C4: on any parsed JSON object, `from_json` extracts `allow`
(default `False`), `reason` (default `"No reason provided"`) and
`category` (default `""`); in particular the parses of
`\x7b"allow": true, "reason": "x", "category": "y"\x7d` and of `\x7b\x7d` give
`Decision(true, "x", "y")` and `Decision(false, "No reason provided", "")`. -/
theorem fromJson_object_extraction :
    (∀ kvs : List (String × PyVal),
      ∃ r, fromJson (Option.some (PyVal.dict kvs)) = Except.ok r
        ∧ r.allow = (assocFind kvs "allow").getD (PyVal.bool false)
        ∧ r.reason = (assocFind kvs "reason").getD (PyVal.str "No reason provided")
        ∧ r.category = (assocFind kvs "category").getD (PyVal.str ""))
    ∧ fromJson (Option.some (PyVal.dict
        [("allow", PyVal.bool true), ("reason", PyVal.str "x"), ("category", PyVal.str "y")]))
        = Except.ok { allow := PyVal.bool true, reason := PyVal.str "x",
                      category := PyVal.str "y" }
    ∧ fromJson (Option.some (PyVal.dict []))
        = Except.ok { allow := PyVal.bool false, reason := PyVal.str "No reason provided",
                      category := PyVal.str "" } :=
  ⟨fun kvs => ⟨_, rfl, rfl, rfl, rfl⟩, rfl, rfl⟩

/-- Claim C3 (divergence witness): on valid JSON whose top-level value is
not an object — here the parse of `[1, 2]` — `from_json` does not return
the `parsing_error` fallback: `data.get` raises `AttributeError`, which
its `except (json.JSONDecodeError, KeyError)` clause does not catch, so
the exception propagates out of `from_json`. -/
theorem fromJson_nonobject_raises :
    fromJson (Option.some (PyVal.list [PyVal.int 1, PyVal.int 2]))
      = Except.error (PyErr.attributeError "get") := rfl

/-- Claim C9 (counterexample): the parse of
`\x7b"allow": true, "reason": ""\x7d` is a JSON object mapping `"reason"` to
the empty string, and `from_json` returns a Decision whose `reason` is
the empty string — not a non-empty one. -/
theorem fromJson_empty_reason_counterexample :
    ∃ r, fromJson (Option.some (PyVal.dict
        [("allow", PyVal.bool true), ("reason", PyVal.str "")]))
      = Except.ok r ∧ ¬ (∃ s, r.reason = PyVal.str s ∧ s ≠ "") := by
  refine ⟨_, rfl, ?_⟩
  rintro ⟨s, hs, hne⟩
  injection hs with h
  exact hne h.symm

/-- Claim C9 (amended): every Decision produced by `from_json` whose
`reason` is not taken verbatim from the parsed object — i.e. on parse
failure, or on an object without a `"reason"` key — has a non-empty
string `reason`; and the two transport-failure fallback Decisions of
`classify` likewise have non-empty string reasons. -/
theorem fromJson_reason_nonempty_unless_supplied :
    (∀ (loaded : Option PyVal) (r : ModerationResponse),
        fromJson loaded = Except.ok r →
        (∀ kvs, loaded = Option.some (PyVal.dict kvs) →
          assocFind kvs "reason" = Option.none) →
        ∃ s, r.reason = PyVal.str s ∧ s ≠ "")
    ∧ (∃ s, permissiveFallback.reason = PyVal.str s ∧ s ≠ "")
    ∧ (∃ s, blockingFallback.reason = PyVal.str s ∧ s ≠ "") := by
  refine ⟨?_, ⟨_, rfl, by decide⟩, ⟨_, rfl, by decide⟩⟩
  intro loaded r hok hnr
  cases loaded with
  | none =>
    injection hok with h
    refine ⟨"Message could not be properly evaluated", ?_, by decide⟩
    rw [← h]
  | some v =>
    cases v with
    | none => simp [fromJson] at hok
    | bool b => simp [fromJson] at hok
    | int n => simp [fromJson] at hok
    | str s => simp [fromJson] at hok
    | list xs => simp [fromJson] at hok
    | dict kvs =>
      have hr : assocFind kvs "reason" = Option.none := hnr kvs rfl
      injection hok with h
      refine ⟨"No reason provided", ?_, by decide⟩
      rw [← h]
      simp [dictGet, hr]

/-- Witness for the amended C9, at the concrete input "parse failure"
(`json.loads` raised): the resulting fallback Decision's reason is a
non-empty string. -/
theorem fromJson_reason_nonempty_unless_supplied_witness :
    ∃ s, (ModerationResponse.mk (PyVal.bool false)
        (PyVal.str "Message could not be properly evaluated")
        (PyVal.str "parsing_error")).reason = PyVal.str s ∧ s ≠ "" :=
  fromJson_reason_nonempty_unless_supplied.1 Option.none _ rfl
    (fun _ h => Option.noConfusion h)

/-- Claim C8: profile lookup never raises: a known name returns the
stored profile, an unknown name falls back to the built-in `"standard"`
profile, whose behavior list is empty and whose permissive flag is
`True`. -/
theorem getModerationProfile_fallback :
    (∀ (setting : String) (p : PyDict),
        assocFind MODERATION_PROFILES setting = Option.some p →
        getModerationProfile setting = p)
    ∧ (∀ setting : String,
        assocFind MODERATION_PROFILES setting = Option.none →
        getModerationProfile setting = standardProfile)
    ∧ assocFind standardProfile "behaviors" = Option.some (PyVal.list [])
    ∧ assocFind standardProfile "permissive_mode" = Option.some (PyVal.bool true) := by
  refine ⟨?_, ?_, rfl, rfl⟩
  · intro setting p hp
    unfold getModerationProfile
    rw [hp]
    rfl
  · intro setting h
    unfold getModerationProfile
    rw [h]
    rfl

/-- Witness for C8: an unknown profile name resolves to the standard
profile. -/
theorem getModerationProfile_fallback_witness :
    getModerationProfile "no_such_profile" = standardProfile :=
  getModerationProfile_fallback.2.1 "no_such_profile" rfl

/-- Claim C6: `_build_system_prompt` is deterministic, and its output
depends only on the profile's `"name"` and `"behaviors"` entries: any two
profile dicts agreeing on those two keys (whatever their descriptions or
other entries) produce identical prompts, and repeated calls on the same
profile produce identical prompts. -/
theorem buildSystemPrompt_depends_only_on_name_behaviors :
    (∀ p : PyDict, buildSystemPrompt p = buildSystemPrompt p)
    ∧ (∀ p1 p2 : PyDict,
        assocFind p1 "name" = assocFind p2 "name" →
        assocFind p1 "behaviors" = assocFind p2 "behaviors" →
        buildSystemPrompt p1 = buildSystemPrompt p2) := by
  refine ⟨fun _ => rfl, ?_⟩
  intro p1 p2 hn hb
  unfold buildSystemPrompt dictItem
  rw [hn, hb]

/-- Witness for C6: the standard profile and a copy of it with a
different description produce the same prompt. -/
theorem buildSystemPrompt_depends_only_on_name_behaviors_witness :
    buildSystemPrompt standardProfile =
      buildSystemPrompt
        [("name", PyVal.str "Standard Moderation"),
         ("description", PyVal.str "a completely different description"),
         ("behaviors", PyVal.list []),
         ("permissive_mode", PyVal.bool true)] :=
  buildSystemPrompt_depends_only_on_name_behaviors.2 standardProfile
    [("name", PyVal.str "Standard Moderation"),
     ("description", PyVal.str "a completely different description"),
     ("behaviors", PyVal.list []),
     ("permissive_mode", PyVal.bool true)] rfl rfl


/-- The `f"- \x7bbehavior\x7d"` rendering of a list of behavior strings:
wrapping the strings as Python values and interpolating them back is the
plain `"- "`-prefixing map. -/
theorem map_dash_pyStr (l : List String) :
    List.map (fun b => "- " ++ pyStr b) (List.map PyVal.str l)
      = List.map (fun s => "- " ++ s) l := by
  induction l with
  | nil => rfl
  | cons x xs ih =>
    simp only [List.map_cons, ih]
    rfl

/-- Claim C7: with a non-empty behavior list the prompt contains a block
naming the profile (`MODERATION PROFILE: <name>`) and each behavior
pattern on its own `- `-bulleted line; with an empty behavior list the
profile block is omitted (the prompt is exactly preamble plus closing
block); and every prompt the builder returns ends with the fixed bias
instruction telling the classifier to err on the side of allowing
ambiguous messages. -/
theorem buildSystemPrompt_structure :
    (∀ (profile : PyDict) (name : String) (bs : List String),
        assocFind profile "name" = Option.some (PyVal.str name) →
        assocFind profile "behaviors" = Option.some (PyVal.list (bs.map PyVal.str)) →
        bs ≠ [] →
        ∃ out, buildSystemPrompt profile = Except.ok out
          ∧ ("MODERATION PROFILE: " ++ name).data <:+: out.data
          ∧ ∀ b ∈ bs, ("\n- " ++ b ++ "\n").data <:+: out.data)
    ∧ (∀ profile : PyDict,
        assocFind profile "behaviors" = Option.some (PyVal.list []) →
        buildSystemPrompt profile = Except.ok (basePromptText ++ closingPromptText))
    ∧ (∀ (profile : PyDict) (out : String),
        buildSystemPrompt profile = Except.ok out →
        biasInstructionText.data <:+ out.data) := by
  refine ⟨?_, ?_, ?_⟩
  · intro profile name bs hn hb hne
    have hdict : dictItem profile "behaviors" = Except.ok (PyVal.list (bs.map PyVal.str)) := by
      unfold dictItem
      rw [hb]
    have hname : dictItem profile "name" = Except.ok (PyVal.str name) := by
      unfold dictItem
      rw [hn]
    have htruthy : truthy (PyVal.list (bs.map PyVal.str)) = true := by
      cases bs with
      | nil => exact absurd rfl hne
      | cons x xs => rfl
    have hout : buildSystemPrompt profile =
        Except.ok (basePromptText ++
          profilePromptText name (pyJoin "\n" (bs.map (fun s => "- " ++ s))) ++
          closingPromptText) := by
      simp only [buildSystemPrompt, hdict, hname, pyIter, htruthy]
      rw [map_dash_pyStr]
      simp [pyStr]
    refine ⟨_, hout, ?_, ?_⟩
    · have h1 : basePromptText ++
          profilePromptText name (pyJoin "\n" (bs.map (fun s => "- " ++ s))) ++
          closingPromptText
          = (basePromptText ++ "\n") ++ ("MODERATION PROFILE: " ++ name) ++
            ("\nWatch specifically for these behavioral patterns:" ++ "\n" ++
              pyJoin "\n" (bs.map (fun s => "- " ++ s)) ++
              "\n" ++ "\nWhen blocking, use specific language about what pattern was detected.\nExamples of targeted responses:\n- \"This appears to be performative posturing rather than actionable co-parenting communication\"\n- \"This message deflects from logistics to emotional manipulation\"\n- \"This seems designed to craft a narrative rather than address children\x27s needs\"\n- \"This appears to be grandstanding without substance about children\x27s welfare\"\n\n" ++
              closingPromptText) := by
        unfold profilePromptText
        simp only [String.append_assoc]
      exact strMid_of_eq h1
    · intro b hbmem
      have h2 : basePromptText ++
          profilePromptText name (pyJoin "\n" (bs.map (fun s => "- " ++ s))) ++
          closingPromptText
          = (basePromptText ++ "\n" ++ "MODERATION PROFILE: " ++ name ++
              "\nWatch specifically for these behavioral patterns:") ++
            ("\n" ++ pyJoin "\n" (bs.map (fun s => "- " ++ s)) ++ "\n") ++
            ("\nWhen blocking, use specific language about what pattern was detected.\nExamples of targeted responses:\n- \"This appears to be performative posturing rather than actionable co-parenting communication\"\n- \"This message deflects from logistics to emotional manipulation\"\n- \"This seems designed to craft a narrative rather than address children\x27s needs\"\n- \"This appears to be grandstanding without substance about children\x27s welfare\"\n\n" ++
              closingPromptText) := by
        unfold profilePromptText
        simp only [String.append_assoc]
      exact (pyJoin_mem_line bs b hbmem).trans (strMid_of_eq h2)
  · intro profile hb
    unfold buildSystemPrompt dictItem
    rw [hb]
    exact rfl
  · intro profile out h
    unfold buildSystemPrompt at h
    split at h
    · exact Except.noConfusion h
    · split at h
      · split at h
        · exact Except.noConfusion h
        · split at h
          · exact Except.noConfusion h
          · injection h with h2
            rw [← h2]
            apply strSuffix_of_eq
            unfold closingPromptText
            rw [← String.append_assoc]
      · injection h with h2
        rw [← h2]
        apply strSuffix_of_eq
        unfold closingPromptText
        rw [← String.append_assoc]

/-- Witness for C7: the shipped `manipulative_coparent` profile has a
non-empty behavior list, and its prompt names the profile and lists each
of its eight behavior patterns on its own line. -/
theorem buildSystemPrompt_structure_witness :
    ∃ out, buildSystemPrompt manipulativeCoparentProfile = Except.ok out
      ∧ ("MODERATION PROFILE: " ++ "Manipulative Co-Parent").data <:+: out.data
      ∧ ∀ b ∈ ["performative posturing without follow-through",
               "crafting narratives about being good while failing to take positive action",
               "manipulative language designed to appear reasonable",
               "deflection from actual logistics to emotional manipulation",
               "making themselves appear as the victim or hero",
               "saying the right things but consistently failing to act",
               "using guilt, blame, or emotional pressure instead of facts",
               "grandstanding or virtue signaling without substance"],
          ("\n- " ++ b ++ "\n").data <:+: out.data :=
  buildSystemPrompt_structure.1 manipulativeCoparentProfile "Manipulative Co-Parent"
    ["performative posturing without follow-through",
     "crafting narratives about being good while failing to take positive action",
     "manipulative language designed to appear reasonable",
     "deflection from actual logistics to emotional manipulation",
     "making themselves appear as the victim or hero",
     "saying the right things but consistently failing to act",
     "using guilt, blame, or emotional pressure instead of facts",
     "grandstanding or virtue signaling without substance"]
    rfl rfl (by decide)

/-- Looking a string-valued category up among the string keys of a table
with Python `==` is plain association-list lookup. -/
theorem categoryLookup_str (t : List (String × String)) (c : String) :
    categoryLookup t (PyVal.str c) = assocFind t c := by
  induction t with
  | nil => rfl
  | cons p rest ih =>
    cases p with
    | mk k v =>
      simp only [categoryLookup, assocFind, ih, pyEq]
      cases assocFind rest c with
      | some w => rfl
      | none => rfl

/-- Claim C5: for a blocked Decision with string reason and category, the
warning is the fixed scope statement followed by the reason verbatim,
except that when the reason is one of the two generic fallback strings
and the category is a key of the table, the table's explanation replaces
the reason; and the table's keys are exactly the seven categories
performative, manipulation, narrative, grandstanding, off_topic,
emotional_pressure, deflection. -/
theorem buildWarningMessage_spec :
    (∀ (r c : String) (a : PyVal), a = PyVal.bool false →
      buildWarningMessage { allow := a, reason := PyVal.str r, category := PyVal.str c } =
        baseWarningText ++ " " ++
          (match (if r = "No reason provided" ∨ r = "Message could not be properly evaluated"
                  then assocFind categoryMessages c else Option.none) with
           | Option.some explanation => explanation
           | Option.none => r))
    ∧ List.map Prod.fst categoryMessages =
        ["performative", "manipulation", "narrative", "grandstanding", "off_topic",
         "emotional_pressure", "deflection"] := by
  refine ⟨?_, rfl⟩
  intro r c a ha
  subst ha
  unfold buildWarningMessage
  simp only [pyEq, categoryLookup_str, pyStr]
  by_cases h : r = "No reason provided" ∨ r = "Message could not be properly evaluated"
  · have hb : (r == "No reason provided" || r == "Message could not be properly evaluated")
        = true := by
      rcases h with h | h
      · simp [h]
      · simp [h]
    cases hfind : assocFind categoryMessages c with
    | some e => simp [hb, if_pos h, hfind]
    | none => simp [hb, if_pos h, hfind]
  · have hne := not_or.mp h
    have hb : (r == "No reason provided" || r == "Message could not be properly evaluated")
        = false := by
      simp [hne.1, hne.2]
    simp [hb, if_neg h]

/-- Witness for C5: a blocked Decision with the specific reason
"Specific AI reason" and category `off_topic` keeps the reason verbatim
(the table is not consulted, since the reason is not generic). -/
theorem buildWarningMessage_spec_witness :
    buildWarningMessage
      { allow := PyVal.bool false, reason := PyVal.str "Specific AI reason",
        category := PyVal.str "off_topic" } =
      baseWarningText ++ " " ++ "Specific AI reason" :=
  (buildWarningMessage_spec.1 "Specific AI reason" "off_topic"
    (PyVal.bool false) rfl).trans (by decide)
